import Mathlib

/-!
Verification of the FIPS bit-packed geographic code library and its
digit-string parsers.

The bit-packed code (`src/src/fips_code.rs`, constants from `src/src/lib.rs`,
`SettingCategory` from `src/src/aspr/mod.rs`) is embedded with the packed
value represented as a `Nat`; Rust `assert!` panics and the fallible
constructor are modelled with `Option`.  The parsers
(`src/ixa-aspr/src/parser.rs`) are embedded over `List Char`; Rust
`Result<(&str, T), (&str, FIPSParserError)>` becomes `Except`.

The primitive `parse_decimal_digits_to_bits`, the state-code table
(`USState`) and `parse_state_code` are declared and used by the sources but
their definitions are not part of the source tree; they are modelled from
the specification, as marked on each such definition.
-/

namespace Fips

/-! ### Constants from `src/src/lib.rs` -/

def FOUR_BIT_MASK : Nat := 15
def SIX_BIT_MASK : Nat := 63
def TEN_BIT_MASK : Nat := 1023
def FOURTEEN_BIT_MASK : Nat := 16383
def TWENTY_BIT_MASK : Nat := 1048575

def STATE_OFFSET : Nat := 58
def COUNTY_OFFSET : Nat := 48
def TRACT_OFFSET : Nat := 28
def CATEGORY_OFFSET : Nat := 24
def ID_OFFSET : Nat := 10

/-! ### State codes

The `states` module (`USState`) is not part of the source tree; only its
interface is visible (`USState::valid_code`, `encode`, `decode`). -/

/-- Modelled from the spec: the `USState` table enumerates state/territory
codes; the data model gives the semantic domain "enumerated state/territory
code, 1..63" and requires "state ≤ 63 and state is a valid enumerated code".
States are represented here by their numeric code, with the valid codes
taken to be `1..63`. -/
def USState.valid_code (c : Nat) : Bool := 1 ≤ c && c ≤ 63

/-- Modelled from the spec: decoding a numeric code to a state succeeds
exactly on valid enumerated codes. -/
def USState.decode (c : Nat) : Option Nat :=
  if USState.valid_code c then some c else none

/-! ### `SettingCategory` from `src/src/aspr/mod.rs` -/

inductive SettingCategory where
  | Unspecified
  | Home
  | Workplace
  | PublicSchool
  | PrivateSchool
  | CensusTract
deriving DecidableEq, Repr

/-- `SettingCategory::encode`: `self as u8`, the declared discriminant. -/
def SettingCategory.encode : SettingCategory → Nat
  | .Unspecified => 0
  | .Home => 1
  | .Workplace => 2
  | .PublicSchool => 3
  | .PrivateSchool => 4
  | .CensusTract => 5

/-- `SettingCategory::decode`: `if value <= 4 { Some(transmute(value)) } else
{ None }`.  The transmute maps a discriminant back to its variant, so under
the `value <= 4` guard only the first five variants can be produced. -/
def SettingCategory.decode (value : Nat) : Option SettingCategory :=
  if value ≤ 4 then
    match value with
    | 0 => some .Unspecified
    | 1 => some .Home
    | 2 => some .Workplace
    | 3 => some .PublicSchool
    | _ => some .PrivateSchool
  else
    none

/-! ### `FIPSCode` from `src/src/fips_code.rs`

The packed value is a `Nat` (the Rust `u64`; all packed values are shown
below to be `< 2 ^ 64`).  Each `encode_*` helper carries the source's
`assert!` as an `Option` guard. -/

def encode_state (state : Nat) : Option Nat :=
  if USState.valid_code state = true ∧ state ≤ SIX_BIT_MASK then
    some (state <<< STATE_OFFSET)
  else
    none

def encode_county (county : Nat) : Option Nat :=
  if county ≤ TEN_BIT_MASK then some (county <<< COUNTY_OFFSET) else none

def encode_tract (tract : Nat) : Option Nat :=
  if tract ≤ TWENTY_BIT_MASK then some (tract <<< TRACT_OFFSET) else none

def encode_category (setting_category : Nat) : Option Nat :=
  if setting_category ≤ FOUR_BIT_MASK then
    some (setting_category <<< CATEGORY_OFFSET)
  else
    none

def encode_id (idValue : Nat) : Option Nat :=
  if idValue ≤ FOURTEEN_BIT_MASK then some (idValue <<< ID_OFFSET) else none

def encode_data (dataValue : Nat) : Option Nat :=
  if dataValue ≤ TEN_BIT_MASK then some dataValue else none

/-- `FIPSCode::new`: ors the encoded fields together and unwraps
`NonZero::new(encoded)`.  The unwrap (a panic when `encoded` is zero) is
modelled by the final guard. -/
def FIPSCode.new (state county tract : Nat) (category : SettingCategory)
    (idValue dataValue : Nat) : Option Nat :=
  match encode_state state, encode_county county, encode_tract tract,
      encode_category category.encode, encode_id idValue, encode_data dataValue with
  | some s, some c, some t, some g, some i, some d =>
    let encoded := s ||| c ||| t ||| g ||| i ||| d
    if encoded ≠ 0 then some encoded else none
  | _, _, _, _, _, _ => none

/-- `FIPSCode::state_code`: `(self.0.get() >> STATE_OFFSET) as u8`. -/
def FIPSCode.state_code (v : Nat) : Nat := (v >>> STATE_OFFSET) % 2 ^ 8

/-- `FIPSCode::state`: `USState::decode(self.state_code()).unwrap_unchecked()`.
The unchecked unwrap is modelled by returning the `Option` itself: `none`
marks the undefined-behavior case. -/
def FIPSCode.state (v : Nat) : Option Nat := USState.decode (FIPSCode.state_code v)

/-- `FIPSCode::county_code`: `((v >> COUNTY_OFFSET) as u16) & TEN_BIT_MASK`. -/
def FIPSCode.county_code (v : Nat) : Nat :=
  ((v >>> COUNTY_OFFSET) % 2 ^ 16) &&& TEN_BIT_MASK

/-- `FIPSCode::census_tract_code`: `((v >> TRACT_OFFSET) as u32) & TWENTY_BIT_MASK`. -/
def FIPSCode.census_tract_code (v : Nat) : Nat :=
  ((v >>> TRACT_OFFSET) % 2 ^ 32) &&& TWENTY_BIT_MASK

/-- `FIPSCode::category_code`: `((v >> CATEGORY_OFFSET) as u8) & FOUR_BIT_MASK`. -/
def FIPSCode.category_code (v : Nat) : Nat :=
  ((v >>> CATEGORY_OFFSET) % 2 ^ 8) &&& FOUR_BIT_MASK

/-- `FIPSCode::category`:
`SettingCategory::decode(self.category_code()).unwrap_unchecked()`.
As with `state`, `none` marks the undefined-behavior case. -/
def FIPSCode.category (v : Nat) : Option SettingCategory :=
  SettingCategory.decode (FIPSCode.category_code v)

/-- `FIPSCode::id`: `((v >> ID_OFFSET) as u16) & FOURTEEN_BIT_MASK`. -/
def FIPSCode.id (v : Nat) : Nat := ((v >>> ID_OFFSET) % 2 ^ 16) &&& FOURTEEN_BIT_MASK

/-- `FIPSCode::data`: `v as u16 & TEN_BIT_MASK`. -/
def FIPSCode.data (v : Nat) : Nat := (v % 2 ^ 16) &&& TEN_BIT_MASK

/-- `!(TEN_BIT_MASK as u64)`: the 64-bit complement of the low ten bits. -/
def INVERSE_TEN_BIT_MASK : Nat := 2 ^ 64 - 2 ^ 10

/-- `FIPSCode::set_data`: asserts `data <= TEN_BIT_MASK`, then replaces the
low ten bits. -/
def FIPSCode.set_data (v dataValue : Nat) : Option Nat :=
  if dataValue ≤ TEN_BIT_MASK then
    some ((v &&& INVERSE_TEN_BIT_MASK) ||| (dataValue &&& TEN_BIT_MASK))
  else
    none

/-- `FIPSCode::compare_non_data`: compares both values with the low ten bits
masked to zero. -/
def FIPSCode.compare_non_data (a b : Nat) : Ordering :=
  compare (a &&& INVERSE_TEN_BIT_MASK) (b &&& INVERSE_TEN_BIT_MASK)

/-! ### `ExpandedFIPSCode` from `src/src/fips_code.rs` -/

structure ExpandedFIPSCode where
  state : Nat
  county : Nat
  tract : Nat
  category : SettingCategory
  idValue : Nat
  dataValue : Nat
deriving DecidableEq, Repr

/-- `ExpandedFIPSCode::from_fips_code`: reads every accessor.  The two
accessors with internal unchecked unwraps (`state`, `category`) make the
result an `Option`. -/
def ExpandedFIPSCode.from_fips_code (v : Nat) : Option ExpandedFIPSCode :=
  match FIPSCode.state v, FIPSCode.category v with
  | some s, some g =>
    some {
      state := s
      county := FIPSCode.county_code v
      tract := FIPSCode.census_tract_code v
      category := g
      idValue := FIPSCode.id v
      dataValue := FIPSCode.data v
    }
  | _, _ => none

/-- `ExpandedFIPSCode::to_fips_code`: repacks the fields with `FIPSCode::new`. -/
def ExpandedFIPSCode.to_fips_code (e : ExpandedFIPSCode) : Option Nat :=
  FIPSCode.new e.state e.county e.tract e.category e.idValue e.dataValue

/-! ### Parser error type

`FIPSParserError` is declared in the missing `fips::parser` module; its
variants and payloads are given by the spec's error taxonomy. -/

/-- Modelled from the spec: the three parse failure kinds, each carrying
"expected vs. found length, offending character, or value vs. capacity". -/
inductive FIPSParserError where
  | InvalidLength (expected found : Nat)
  | InvalidDigit (found : Char)
  | ValueExceedsCapacity (value capacity : Nat)
deriving DecidableEq, Repr

/-- `FIPSParseResult<T> = Result<(&str, T), (&str, FIPSParserError)>`.
Input strings become `List Char`. -/
abbrev FIPSParseResult (α : Type) := Except (List Char × FIPSParserError) (List Char × α)

/-- The decimal value of a digit string (most significant first). -/
def digitsToNat (ds : List Char) : Nat :=
  ds.foldl (fun acc c => acc * 10 + (c.toNat - 48)) 0

/-- Modelled from the spec: the primitive
`parse_fixed_digits_to_bits(digit_count, bit_width, input)`.  "Takes exactly
`digit_count` leading characters, requires all of them to be decimal digits
(else InvalidLength ...), parses them as a decimal integer, and checks the
integer against `2^bit_width - 1`; exceeding it is ValueExceedsCapacity."
Its definition is in the missing `fips::parser` module. -/
def parse_decimal_digits_to_bits (digitCount bitWidth : Nat) (input : List Char) :
    FIPSParseResult Nat :=
  let taken := input.take digitCount
  if taken.length = digitCount ∧ taken.all (fun c => c.isDigit) then
    let value := digitsToNat taken
    let capacity := 2 ^ bitWidth - 1
    if value ≤ capacity then
      .ok (input.drop digitCount, value)
    else
      .error (input, .ValueExceedsCapacity value capacity)
  else
    .error (input, .InvalidLength digitCount (taken.takeWhile (fun c => c.isDigit)).length)

/-- Modelled from the spec: `parse_state_code` is "delegated to an external
state-code table that maps a ... numeric prefix to an enumerated state and
returns the unconsumed remainder"; the GEOID structure gives the state two
digits and the packer requires a valid enumerated code (`1..63` in this
model, within 6 bits).  The error produced for an unrecognized code is not
fixed by the spec; no theorem below depends on that branch. -/
def parse_state_code (input : List Char) : FIPSParseResult Nat :=
  match parse_decimal_digits_to_bits 2 6 input with
  | .error e => .error e
  | .ok (rest, value) =>
    if USState.valid_code value then .ok (rest, value)
    else .error (input, .ValueExceedsCapacity value 63)

/-! ### Field parsers from `src/ixa-aspr/src/parser.rs` -/

/-- `parse_county_code`: first three digits into 10 bits. -/
def parse_county_code (input : List Char) : FIPSParseResult Nat :=
  parse_decimal_digits_to_bits 3 10 input

/-- `parse_tract_code`: first six digits into 20 bits. -/
def parse_tract_code (input : List Char) : FIPSParseResult Nat :=
  parse_decimal_digits_to_bits 6 20 input

/-- `parse_home_id`: first four digits into 14 bits. -/
def parse_home_id (input : List Char) : FIPSParseResult Nat :=
  parse_decimal_digits_to_bits 4 14 input

/-- The literal marker stripped by `parse_private_school_id`. -/
def XPRVX : List Char := ['x', 'p', 'r', 'v', 'x']

/-- `parse_private_school_id`: strips one leading `"xprvx"` if present
(`input.strip_prefix("xprvx").unwrap_or(input)`), then parses four digits
into 11 bits. -/
def parse_private_school_id (input : List Char) : FIPSParseResult Nat :=
  let stripped := if input.take 5 = XPRVX then input.drop 5 else input
  parse_decimal_digits_to_bits 4 11 stripped

/-- `parse_public_school_id`: first three digits into 10 bits. -/
def parse_public_school_id (input : List Char) : FIPSParseResult Nat :=
  parse_decimal_digits_to_bits 3 10 input

/-- `parse_workplace_id`: first five digits into 14 bits. -/
def parse_workplace_id (input : List Char) : FIPSParseResult Nat :=
  parse_decimal_digits_to_bits 5 14 input

/-- `u64::MAX`. -/
def U64_MAX : Nat := 2 ^ 64 - 1

/-- `parse_integer`: scans leading decimal digits.  `digit_end` (the count of
leading digits) equal to zero yields `InvalidLength {expected: 1, found: 0}`;
otherwise the all-digit, nonempty substring is parsed as a `u64`, whose only
possible failure is overflow, reported as the sentinel
`ValueExceedsCapacity {value: u64::MAX, capacity: u64::MAX}`.  (The source's
match arms for `Empty` and `InvalidDigit` parse errors are unreachable there:
the substring handed to `parse::<u64>` is nonempty and all digits.) -/
def parse_integer (input : List Char) : FIPSParseResult Nat :=
  let digits := input.takeWhile (fun c => c.isDigit)
  if digits.length = 0 then
    .error (input, .InvalidLength 1 0)
  else
    let value := digitsToNat digits
    if value ≤ U64_MAX then
      .ok (input.drop digits.length, value)
    else
      .error (input, .ValueExceedsCapacity U64_MAX U64_MAX)

/-! ### Composite parsers from `src/ixa-aspr/src/parser.rs`

Each composite panics ("This is a bug in the ASPR parser.") when the packed
constructor fails after all fields were individually validated; the panic is
modelled by the outer `Option` being `none`. -/

/-- `parse_fips_home_id`: state, county, tract, home id; category `Home`. -/
def parse_fips_home_id (input : List Char) : Option (FIPSParseResult Nat) :=
  match parse_state_code input with
  | .error e => some (.error e)
  | .ok (rest, state) =>
  match parse_county_code rest with
  | .error e => some (.error e)
  | .ok (rest, county) =>
  match parse_tract_code rest with
  | .error e => some (.error e)
  | .ok (rest, tract) =>
  match parse_home_id rest with
  | .error e => some (.error e)
  | .ok (rest, homeId) =>
  match FIPSCode.new state county tract .Home homeId 0 with
  | some code => some (.ok (rest, code))
  | none => none

/-- `parse_fips_school_id`: state, county, then branches on whether the rest
starts with `"x"`: private school (tract forced to 0) or tract followed by a
public-school id. -/
def parse_fips_school_id (input : List Char) : Option (FIPSParseResult Nat) :=
  match parse_state_code input with
  | .error e => some (.error e)
  | .ok (rest, state) =>
  match parse_county_code rest with
  | .error e => some (.error e)
  | .ok (rest, county) =>
  if rest.take 1 = ['x'] then
    match parse_private_school_id rest with
    | .error e => some (.error e)
    | .ok (rest, schoolId) =>
    match FIPSCode.new state county 0 .PrivateSchool schoolId 0 with
    | some code => some (.ok (rest, code))
    | none => none
  else
    match parse_tract_code rest with
    | .error e => some (.error e)
    | .ok (rest, tract) =>
    match parse_public_school_id rest with
    | .error e => some (.error e)
    | .ok (rest, schoolId) =>
    match FIPSCode.new state county tract .PublicSchool schoolId 0 with
    | some code => some (.ok (rest, code))
    | none => none

/-- `parse_fips_workplace_id`: state, county, tract, workplace id; category
`Workplace`. -/
def parse_fips_workplace_id (input : List Char) : Option (FIPSParseResult Nat) :=
  match parse_state_code input with
  | .error e => some (.error e)
  | .ok (rest, state) =>
  match parse_county_code rest with
  | .error e => some (.error e)
  | .ok (rest, county) =>
  match parse_tract_code rest with
  | .error e => some (.error e)
  | .ok (rest, tract) =>
  match parse_workplace_id rest with
  | .error e => some (.error e)
  | .ok (rest, workplaceId) =>
  match FIPSCode.new state county tract .Workplace workplaceId 0 with
  | some code => some (.ok (rest, code))
  | none => none

/-! ### Specification-side views used to state the claims -/

/-- The place-value (Horner) form of the packed layout: state at bits 63..58,
county 57..48, tract 47..28, category 27..24, id 23..10, data 9..0. -/
def hornerFields (s c t g i d : Nat) : Nat :=
  2 ^ 10 * (2 ^ 14 * (2 ^ 4 * (2 ^ 20 * (2 ^ 10 * s + c) + t) + g) + i) + d

/-- The Horner form of the five non-data fields (bits 63..10, unshifted). -/
def hornerNonData (s c t g i : Nat) : Nat :=
  2 ^ 14 * (2 ^ 4 * (2 ^ 20 * (2 ^ 10 * s + c) + t) + g) + i

/-- The spec's hierarchical field order: lexicographic on
(state code, county code, tract code, category code, id), with category and
id as tie-breakers beneath tract. -/
def lexFieldCompare (s₁ c₁ t₁ g₁ i₁ s₂ c₂ t₂ g₂ i₂ : Nat) : Ordering :=
  (compare s₁ s₂).then <| (compare c₁ c₂).then <| (compare t₁ t₂).then <|
    (compare g₁ g₂).then (compare i₁ i₂)

end Fips

namespace Fips

/-! ### Bit-layout arithmetic helpers -/

/-- Adjoining a low field to a shifted value: when `b` fits in `j` bits, the
bitwise or of `a` shifted past it and `b` shifted to position `k` is the
Horner step `2 ^ j * a + b` shifted to position `k`. -/
theorem shift_lor_eq {j : Nat} (a b k : Nat) (hb : b < 2 ^ j) :
    a <<< (k + j) ||| b <<< k = (2 ^ j * a + b) <<< k := by
  rw [Nat.shiftLeft_eq, Nat.shiftLeft_eq, Nat.shiftLeft_eq]
  have hbk : b * 2 ^ k < 2 ^ (k + j) := by
    calc b * 2 ^ k < 2 ^ j * 2 ^ k := (Nat.mul_lt_mul_right (Nat.two_pow_pos k)).mpr hb
    _ = 2 ^ (k + j) := by rw [← pow_add, Nat.add_comm]
  rw [show a * 2 ^ (k + j) = 2 ^ (k + j) * a from Nat.mul_comm _ _,
    ← Nat.mul_add_lt_is_or hbk a]
  ring

/-- The or-chain built by `FIPSCode::new` equals the Horner form of the six
fields, provided each field fits its declared width. -/
theorem encoded_eq (s c t g i d : Nat) (_hs : s ≤ 63) (hc : c ≤ 1023)
    (ht : t ≤ 1048575) (hg : g ≤ 15) (hi : i ≤ 16383) (hd : d ≤ 1023) :
    s <<< 58 ||| c <<< 48 ||| t <<< 28 ||| g <<< 24 ||| i <<< 10 ||| d =
      hornerFields s c t g i d := by
  have h1 : s <<< 58 ||| c <<< 48 = (2 ^ 10 * s + c) <<< 48 := by
    have h := shift_lor_eq (j := 10) s c 48 (by omega)
    rwa [show (48 + 10 : Nat) = 58 by norm_num] at h
  have h2 : (2 ^ 10 * s + c) <<< 48 ||| t <<< 28 =
      (2 ^ 20 * (2 ^ 10 * s + c) + t) <<< 28 := by
    have h := shift_lor_eq (j := 20) (2 ^ 10 * s + c) t 28 (by omega)
    rwa [show (28 + 20 : Nat) = 48 by norm_num] at h
  have h3 : (2 ^ 20 * (2 ^ 10 * s + c) + t) <<< 28 ||| g <<< 24 =
      (2 ^ 4 * (2 ^ 20 * (2 ^ 10 * s + c) + t) + g) <<< 24 := by
    have h := shift_lor_eq (j := 4) (2 ^ 20 * (2 ^ 10 * s + c) + t) g 24 (by omega)
    rwa [show (24 + 4 : Nat) = 28 by norm_num] at h
  have h4 : (2 ^ 4 * (2 ^ 20 * (2 ^ 10 * s + c) + t) + g) <<< 24 ||| i <<< 10 =
      (2 ^ 14 * (2 ^ 4 * (2 ^ 20 * (2 ^ 10 * s + c) + t) + g) + i) <<< 10 := by
    have h := shift_lor_eq (j := 14) (2 ^ 4 * (2 ^ 20 * (2 ^ 10 * s + c) + t) + g)
      i 10 (by omega)
    rwa [show (10 + 14 : Nat) = 24 by norm_num] at h
  have h5 : (2 ^ 14 * (2 ^ 4 * (2 ^ 20 * (2 ^ 10 * s + c) + t) + g) + i) <<< 10 ||| d =
      hornerFields s c t g i d := by
    have h := shift_lor_eq (j := 10)
      (2 ^ 14 * (2 ^ 4 * (2 ^ 20 * (2 ^ 10 * s + c) + t) + g) + i) d 0 (by omega)
    rw [show (0 + 10 : Nat) = 10 by norm_num, Nat.shiftLeft_zero, Nat.shiftLeft_zero] at h
    rw [h, hornerFields]
  rw [h1, h2, h3, h4, h5]

theorem SettingCategory.encode_le (g : SettingCategory) : g.encode ≤ 5 := by
  cases g <;> simp [SettingCategory.encode]

theorem USState.valid_code_iff {s : Nat} :
    USState.valid_code s = true ↔ 1 ≤ s ∧ s ≤ 63 := by
  simp [USState.valid_code]

/-- On valid field values, `FIPSCode::new` succeeds and produces the Horner
form of the six fields. -/
theorem FIPSCode.new_eq (state county tract : Nat) (category : SettingCategory)
    (idValue dataValue : Nat) (hs : USState.valid_code state = true)
    (hc : county ≤ 1023) (ht : tract ≤ 1048575) (hi : idValue ≤ 16383)
    (hd : dataValue ≤ 1023) :
    FIPSCode.new state county tract category idValue dataValue =
      some (hornerFields state county tract category.encode idValue dataValue) := by
  obtain ⟨hs1, hs63⟩ := USState.valid_code_iff.mp hs
  have hg : category.encode ≤ 15 :=
    le_trans (SettingCategory.encode_le category) (by norm_num)
  have e1 : encode_state state = some (state <<< 58) := by
    unfold encode_state STATE_OFFSET SIX_BIT_MASK
    rw [if_pos ⟨hs, hs63⟩]
  have e2 : encode_county county = some (county <<< 48) := by
    unfold encode_county COUNTY_OFFSET TEN_BIT_MASK
    rw [if_pos hc]
  have e3 : encode_tract tract = some (tract <<< 28) := by
    unfold encode_tract TRACT_OFFSET TWENTY_BIT_MASK
    rw [if_pos ht]
  have e4 : encode_category category.encode = some (category.encode <<< 24) := by
    unfold encode_category CATEGORY_OFFSET FOUR_BIT_MASK
    rw [if_pos hg]
  have e5 : encode_id idValue = some (idValue <<< 10) := by
    unfold encode_id ID_OFFSET FOURTEEN_BIT_MASK
    rw [if_pos hi]
  have e6 : encode_data dataValue = some dataValue := by
    unfold encode_data TEN_BIT_MASK
    rw [if_pos hd]
  have henc := encoded_eq state county tract category.encode idValue dataValue
    hs63 hc ht hg hi hd
  have hpos : hornerFields state county tract category.encode idValue dataValue ≠ 0 := by
    unfold hornerFields
    omega
  unfold FIPSCode.new
  rw [e1, e2, e3, e4, e5, e6]
  simp only [henc, hpos, ne_eq, not_false_eq_true, if_true]

/-- The Horner form splits as data bits below the non-data bits. -/
theorem hornerFields_split (s c t g i d : Nat) :
    hornerFields s c t g i d = 2 ^ 10 * hornerNonData s c t g i + d := rfl

/-- The non-data bits fit in 54 bits when the fields fit their widths. -/
theorem hornerNonData_lt (s c t g i : Nat) (hs : s ≤ 63) (hc : c ≤ 1023)
    (ht : t ≤ 1048575) (hg : g ≤ 15) (hi : i ≤ 16383) :
    hornerNonData s c t g i < 2 ^ 54 := by
  unfold hornerNonData
  omega

/-- Masking with `!(TEN_BIT_MASK as u64)` clears exactly the data bits. -/
theorem and_inverse_mask (V d : Nat) (hV : V < 2 ^ 54) (hd : d < 2 ^ 10) :
    (2 ^ 10 * V + d) &&& INVERSE_TEN_BIT_MASK = 2 ^ 10 * V := by
  have hmask : INVERSE_TEN_BIT_MASK = 2 ^ 10 * (2 ^ 54 - 1) := by
    norm_num [INVERSE_TEN_BIT_MASK]
  apply Nat.eq_of_testBit_eq
  intro j
  rw [Nat.testBit_and, hmask, Nat.testBit_mul_pow_two_add V hd,
    Nat.testBit_mul_pow_two, Nat.testBit_mul_pow_two, Nat.testBit_two_pow_sub_one]
  by_cases h10 : j < 10
  · simp [h10, Nat.not_le_of_lt h10]
  · have h10' : 10 ≤ j := Nat.le_of_not_lt h10
    by_cases h54 : j - 10 < 54
    · simp [h10, h10', h54]
    · have hV' : V < 2 ^ (j - 10) :=
        lt_of_lt_of_le hV (Nat.pow_le_pow_right (by norm_num) (by omega))
      simp [h10, h10', h54, Nat.testBit_lt_two_pow hV']

/-- Inversion for `FIPSCode::new`: success implies every field was in range
and the result is the Horner form. -/
theorem FIPSCode.new_inv {s c t : Nat} {g : SettingCategory} {i d v : Nat}
    (h : FIPSCode.new s c t g i d = some v) :
    USState.valid_code s = true ∧ c ≤ 1023 ∧ t ≤ 1048575 ∧ i ≤ 16383 ∧ d ≤ 1023 ∧
      v = hornerFields s c t g.encode i d := by
  unfold FIPSCode.new encode_state encode_county encode_tract encode_category
    encode_id encode_data at h
  unfold SIX_BIT_MASK TEN_BIT_MASK TWENTY_BIT_MASK FOUR_BIT_MASK FOURTEEN_BIT_MASK
    STATE_OFFSET COUNTY_OFFSET TRACT_OFFSET CATEGORY_OFFSET ID_OFFSET at h
  by_cases h1 : USState.valid_code s = true ∧ s ≤ 63
  · rw [if_pos h1] at h
    by_cases h2 : c ≤ 1023
    · rw [if_pos h2] at h
      by_cases h3 : t ≤ 1048575
      · rw [if_pos h3] at h
        have hg : g.encode ≤ 15 := le_trans (SettingCategory.encode_le g) (by norm_num)
        rw [if_pos hg] at h
        by_cases h5 : i ≤ 16383
        · rw [if_pos h5] at h
          by_cases h6 : d ≤ 1023
          · rw [if_pos h6] at h
            simp only [] at h
            have henc := encoded_eq s c t g.encode i d h1.2 h2 h3 hg h5 h6
            rw [henc] at h
            split at h
            · exact ⟨h1.1, h2, h3, h5, h6, (Option.some.injEq _ _ ▸ h).symm⟩
            · exact absurd h (by simp)
          · rw [if_neg h6] at h; exact absurd h (by simp)
        · rw [if_neg h5] at h; exact absurd h (by simp)
      · rw [if_neg h3] at h; exact absurd h (by simp)
    · rw [if_neg h2] at h; exact absurd h (by simp)
  · rw [if_neg h1] at h; exact absurd h (by simp)

/-! ### Ordering helpers -/

theorem then_assoc (a b c : Ordering) : (a.then b).then c = a.then (b.then c) := by
  cases a <;> rfl

/-- Comparison of two Horner steps with the same weight is lexicographic,
provided the low parts are below the weight. -/
theorem compare_mul_add {m : Nat} (a₁ b₁ a₂ b₂ : Nat) (h₁ : b₁ < m) (h₂ : b₂ < m) :
    compare (m * a₁ + b₁) (m * a₂ + b₂) = (compare a₁ a₂).then (compare b₁ b₂) := by
  rcases Nat.lt_trichotomy a₁ a₂ with h | h | h
  · have hlt : m * a₁ + b₁ < m * a₂ + b₂ :=
      calc m * a₁ + b₁ < m * a₁ + m := Nat.add_lt_add_left h₁ _
      _ = m * (a₁ + 1) := by ring
      _ ≤ m * a₂ := Nat.mul_le_mul_left m (Nat.succ_le_of_lt h)
      _ ≤ m * a₂ + b₂ := Nat.le_add_right _ _
    rw [Nat.compare_eq_lt.mpr hlt, Nat.compare_eq_lt.mpr h]
    rfl
  · subst h
    rw [Nat.compare_eq_eq.mpr rfl]
    rcases Nat.lt_trichotomy b₁ b₂ with hb | hb | hb
    · rw [Nat.compare_eq_lt.mpr (Nat.add_lt_add_left hb _), Nat.compare_eq_lt.mpr hb]
      rfl
    · subst hb
      rw [Nat.compare_eq_eq.mpr rfl, Nat.compare_eq_eq.mpr rfl]
      rfl
    · rw [Nat.compare_eq_gt.mpr (Nat.add_lt_add_left hb _), Nat.compare_eq_gt.mpr hb]
      rfl
  · have hgt : m * a₂ + b₂ < m * a₁ + b₁ :=
      calc m * a₂ + b₂ < m * a₂ + m := Nat.add_lt_add_left h₂ _
      _ = m * (a₂ + 1) := by ring
      _ ≤ m * a₁ := Nat.mul_le_mul_left m (Nat.succ_le_of_lt h)
      _ ≤ m * a₁ + b₁ := Nat.le_add_right _ _
    rw [Nat.compare_eq_gt.mpr hgt, Nat.compare_eq_gt.mpr h]
    rfl

/-- Comparison is invariant under multiplication by a positive weight. -/
theorem compare_mul_left {m : Nat} (hm : 0 < m) (x y : Nat) :
    compare (m * x) (m * y) = compare x y := by
  have h := compare_mul_add (m := m) x 0 y 0 hm hm
  simp only [Nat.add_zero] at h
  rw [h, Nat.compare_eq_eq.mpr rfl]
  cases compare x y <;> rfl

/-- Comparing the non-data Horner forms is the spec's lexicographic field
order. -/
theorem compare_hornerNonData (s₁ c₁ t₁ g₁ i₁ s₂ c₂ t₂ g₂ i₂ : Nat)
    (hc₁ : c₁ ≤ 1023) (ht₁ : t₁ ≤ 1048575) (hg₁ : g₁ ≤ 15) (hi₁ : i₁ ≤ 16383)
    (hc₂ : c₂ ≤ 1023) (ht₂ : t₂ ≤ 1048575) (hg₂ : g₂ ≤ 15) (hi₂ : i₂ ≤ 16383) :
    compare (hornerNonData s₁ c₁ t₁ g₁ i₁) (hornerNonData s₂ c₂ t₂ g₂ i₂) =
      lexFieldCompare s₁ c₁ t₁ g₁ i₁ s₂ c₂ t₂ g₂ i₂ := by
  unfold hornerNonData lexFieldCompare
  rw [compare_mul_add _ _ _ _ (by omega) (by omega),
    compare_mul_add _ _ _ _ (by omega) (by omega),
    compare_mul_add _ _ _ _ (by omega) (by omega),
    compare_mul_add _ _ _ _ (by omega) (by omega),
    then_assoc, then_assoc, then_assoc]

/-- `compare_non_data` on two packed values is the comparison of their
non-data Horner parts. -/
theorem compare_non_data_horner (s₁ c₁ t₁ g₁ i₁ d₁ s₂ c₂ t₂ g₂ i₂ d₂ : Nat)
    (hs₁ : s₁ ≤ 63) (hc₁ : c₁ ≤ 1023) (ht₁ : t₁ ≤ 1048575) (hg₁ : g₁ ≤ 15)
    (hi₁ : i₁ ≤ 16383) (hd₁ : d₁ ≤ 1023)
    (hs₂ : s₂ ≤ 63) (hc₂ : c₂ ≤ 1023) (ht₂ : t₂ ≤ 1048575) (hg₂ : g₂ ≤ 15)
    (hi₂ : i₂ ≤ 16383) (hd₂ : d₂ ≤ 1023) :
    FIPSCode.compare_non_data (hornerFields s₁ c₁ t₁ g₁ i₁ d₁)
      (hornerFields s₂ c₂ t₂ g₂ i₂ d₂) =
      compare (hornerNonData s₁ c₁ t₁ g₁ i₁) (hornerNonData s₂ c₂ t₂ g₂ i₂) := by
  unfold FIPSCode.compare_non_data
  rw [hornerFields_split, hornerFields_split,
    and_inverse_mask _ _ (hornerNonData_lt s₁ c₁ t₁ g₁ i₁ hs₁ hc₁ ht₁ hg₁ hi₁) (by omega),
    and_inverse_mask _ _ (hornerNonData_lt s₂ c₂ t₂ g₂ i₂ hs₂ hc₂ ht₂ hg₂ hi₂) (by omega),
    compare_mul_left (by norm_num)]

/-! ### Claim theorems -/

/-- C1: the claimed pack/expand round-trip identity fails on the code.  The
constructor accepts the field tuple (state 48, county 0, tract 0, category
`CensusTract`, id 0, data 0) — every field is within its bit-width capacity —
but `ExpandedFIPSCode::from_fips_code` of the resulting code does not return
the original tuple: `SettingCategory::decode` rejects the encoded category
value 5, so the `category()` accessor's unchecked unwrap fails (modelled as
`none`) instead of producing the tuple. -/
theorem c1_roundtrip_fails_for_censustract :
    FIPSCode.new 48 0 0 .CensusTract 0 0 = some (hornerFields 48 0 0 5 0 0) ∧
    ExpandedFIPSCode.from_fips_code (hornerFields 48 0 0 5 0 0) = none := by
  constructor
  · rfl
  · rfl

/-- C4: the claimed totality of the accessors fails on the code.  The
constructor accepts the `CensusTract` variant (its encoding 5 is within the
4-bit capacity), but on the resulting code the `category()` accessor's
internal `SettingCategory::decode(5)` returns `None`, so its unchecked
unwrap is not safe (modelled as the accessor returning `none`). -/
theorem c4_category_accessor_not_total :
    SettingCategory.encode .CensusTract ≤ 15 ∧
    FIPSCode.new 48 0 0 .CensusTract 0 0 = some (hornerFields 48 0 0 5 0 0) ∧
    FIPSCode.category_code (hornerFields 48 0 0 5 0 0) = 5 ∧
    SettingCategory.decode 5 = none ∧
    FIPSCode.category (hornerFields 48 0 0 5 0 0) = none := by
  refine ⟨by decide, rfl, by decide, by decide, by decide⟩

/-- C5: every validly constructed packed code is nonzero (a valid state code
is at least 1 and occupies the top bits), and `set_data` preserves
nonzeroness. -/
theorem c5_packed_code_nonzero (s c t : Nat) (g : SettingCategory)
    (i d v d₂ w : Nat) (hv : FIPSCode.new s c t g i d = some v)
    (hw : FIPSCode.set_data v d₂ = some w) : v ≠ 0 ∧ w ≠ 0 := by
  obtain ⟨hs, hc, ht, hi, hd, hveq⟩ := FIPSCode.new_inv hv
  obtain ⟨hs1, hs63⟩ := USState.valid_code_iff.mp hs
  have hg : g.encode ≤ 15 := le_trans (SettingCategory.encode_le g) (by norm_num)
  subst hveq
  have hVpos : 1 ≤ hornerNonData s c t g.encode i := by
    unfold hornerNonData
    omega
  constructor
  · rw [hornerFields_split]
    omega
  · unfold FIPSCode.set_data at hw
    by_cases h2 : d₂ ≤ TEN_BIT_MASK
    · rw [if_pos h2] at hw
      rw [hornerFields_split,
        and_inverse_mask _ _ (hornerNonData_lt s c t g.encode i hs63 hc ht hg hi)
          (by omega)] at hw
      have hd2 : d₂ &&& TEN_BIT_MASK < 2 ^ 10 := by
        have hmod := Nat.and_pow_two_sub_one_eq_mod d₂ 10
        norm_num at hmod
        unfold TEN_BIT_MASK
        omega
      rw [← Nat.mul_add_lt_is_or hd2 _] at hw
      have hw' := Option.some.inj hw
      omega
    · rw [if_neg h2] at hw
      exact absurd hw (by simp)

/-- C6: codes built from the same fields except the data field compare equal
under `compare_non_data`; `compare_non_data` is exactly the comparison of
the two values with the low ten bits masked to zero; and the natural
full-value ordering can still distinguish a concrete such pair. -/
theorem c6_compare_non_data_ignores_data (s c t : Nat) (g : SettingCategory)
    (i d₁ d₂ v₁ v₂ a b : Nat)
    (h₁ : FIPSCode.new s c t g i d₁ = some v₁)
    (h₂ : FIPSCode.new s c t g i d₂ = some v₂) :
    FIPSCode.compare_non_data v₁ v₂ = .eq ∧
    FIPSCode.compare_non_data a b =
      compare (a &&& INVERSE_TEN_BIT_MASK) (b &&& INVERSE_TEN_BIT_MASK) ∧
    FIPSCode.new 48 123 990101 .Home 14938 511 =
      some (hornerFields 48 123 990101 1 14938 511) ∧
    FIPSCode.new 48 123 990101 .Home 14938 255 =
      some (hornerFields 48 123 990101 1 14938 255) ∧
    FIPSCode.compare_non_data (hornerFields 48 123 990101 1 14938 511)
      (hornerFields 48 123 990101 1 14938 255) = .eq ∧
    compare (hornerFields 48 123 990101 1 14938 511)
      (hornerFields 48 123 990101 1 14938 255) ≠ .eq := by
  obtain ⟨hs, hc, ht, hi, hd₁', hv₁⟩ := FIPSCode.new_inv h₁
  obtain ⟨_, _, _, _, hd₂', hv₂⟩ := FIPSCode.new_inv h₂
  obtain ⟨hs1, hs63⟩ := USState.valid_code_iff.mp hs
  have hg : g.encode ≤ 15 := le_trans (SettingCategory.encode_le g) (by norm_num)
  subst hv₁
  subst hv₂
  refine ⟨?_, rfl, rfl, rfl, by decide, by decide⟩
  rw [compare_non_data_horner s c t g.encode i d₁ s c t g.encode i d₂
    hs63 hc ht hg hi hd₁' hs63 hc ht hg hi hd₂']
  exact Nat.compare_eq_eq.mpr rfl

/-- C7: on validly constructed codes, `compare_non_data` coincides with the
lexicographic order on (state code, county code, tract code, category code,
id): the bit layout makes masked unsigned comparison follow the
geographic/administrative hierarchy with category and id as tie-breakers. -/
theorem c7_compare_non_data_is_hierarchical (s₁ c₁ t₁ : Nat)
    (g₁ : SettingCategory) (i₁ d₁ v₁ : Nat) (s₂ c₂ t₂ : Nat)
    (g₂ : SettingCategory) (i₂ d₂ v₂ : Nat)
    (h₁ : FIPSCode.new s₁ c₁ t₁ g₁ i₁ d₁ = some v₁)
    (h₂ : FIPSCode.new s₂ c₂ t₂ g₂ i₂ d₂ = some v₂) :
    FIPSCode.compare_non_data v₁ v₂ =
      lexFieldCompare s₁ c₁ t₁ g₁.encode i₁ s₂ c₂ t₂ g₂.encode i₂ := by
  obtain ⟨hs₁, hc₁, ht₁, hi₁, hd₁', hv₁⟩ := FIPSCode.new_inv h₁
  obtain ⟨hs₂, hc₂, ht₂, hi₂, hd₂', hv₂⟩ := FIPSCode.new_inv h₂
  obtain ⟨hs₁1, hs₁63⟩ := USState.valid_code_iff.mp hs₁
  obtain ⟨hs₂1, hs₂63⟩ := USState.valid_code_iff.mp hs₂
  have hg₁ : g₁.encode ≤ 15 := le_trans (SettingCategory.encode_le g₁) (by norm_num)
  have hg₂ : g₂.encode ≤ 15 := le_trans (SettingCategory.encode_le g₂) (by norm_num)
  subst hv₁
  subst hv₂
  rw [compare_non_data_horner s₁ c₁ t₁ g₁.encode i₁ d₁ s₂ c₂ t₂ g₂.encode i₂ d₂
    hs₁63 hc₁ ht₁ hg₁ hi₁ hd₁' hs₂63 hc₂ ht₂ hg₂ hi₂ hd₂']
  exact compare_hornerNonData s₁ c₁ t₁ g₁.encode i₁ s₂ c₂ t₂ g₂.encode i₂
    hc₁ ht₁ hg₁ hi₁ hc₂ ht₂ hg₂ hi₂

/-- Witness for C5 at a concrete input: the home-identifier code for state
11, county 1, tract 10900, id 24, and a `set_data` with value 7. -/
theorem c5_packed_code_nonzero_witness :
    hornerFields 11 1 10900 1 24 0 ≠ 0 ∧
    (hornerFields 11 1 10900 1 24 0 &&& INVERSE_TEN_BIT_MASK |||
      (7 &&& TEN_BIT_MASK)) ≠ 0 :=
  c5_packed_code_nonzero 11 1 10900 .Home 24 0 (hornerFields 11 1 10900 1 24 0) 7
    (hornerFields 11 1 10900 1 24 0 &&& INVERSE_TEN_BIT_MASK ||| (7 &&& TEN_BIT_MASK))
    rfl rfl

/-- Witness for C6 at concrete inputs. -/
theorem c6_compare_non_data_ignores_data_witness :
    FIPSCode.compare_non_data (hornerFields 48 123 990101 1 14938 511)
      (hornerFields 48 123 990101 1 14938 255) = .eq ∧
    FIPSCode.compare_non_data 1024 2048 =
      compare (1024 &&& INVERSE_TEN_BIT_MASK) (2048 &&& INVERSE_TEN_BIT_MASK) ∧
    FIPSCode.new 48 123 990101 .Home 14938 511 =
      some (hornerFields 48 123 990101 1 14938 511) ∧
    FIPSCode.new 48 123 990101 .Home 14938 255 =
      some (hornerFields 48 123 990101 1 14938 255) ∧
    FIPSCode.compare_non_data (hornerFields 48 123 990101 1 14938 511)
      (hornerFields 48 123 990101 1 14938 255) = .eq ∧
    compare (hornerFields 48 123 990101 1 14938 511)
      (hornerFields 48 123 990101 1 14938 255) ≠ .eq :=
  c6_compare_non_data_ignores_data 48 123 990101 .Home 14938 511 255
    (hornerFields 48 123 990101 1 14938 511) (hornerFields 48 123 990101 1 14938 255)
    1024 2048 rfl rfl

/-- Witness for C7 at concrete inputs: a home code in state 11 versus a
private-school code in state 24. -/
theorem c7_compare_non_data_is_hierarchical_witness :
    FIPSCode.compare_non_data (hornerFields 11 1 10900 1 24 0)
      (hornerFields 24 31 0 4 150 0) =
      lexFieldCompare 11 1 10900 1 24 24 31 0 4 150 :=
  c7_compare_non_data_is_hierarchical 11 1 10900 .Home 24 0
    (hornerFields 11 1 10900 1 24 0) 24 31 0 .PrivateSchool 150 0
    (hornerFields 24 31 0 4 150 0) rfl rfl

/-! ### Parser lemmas -/

/-- A decimal digit character contributes at most 9. -/
theorem digit_val_le {c : Char} (h : c.isDigit = true) : c.toNat - 48 ≤ 9 := by
  simp only [Char.isDigit, Bool.and_eq_true, decide_eq_true_eq] at h
  have h2 : c.toNat ≤ 57 := by
    unfold Char.toNat
    exact UInt32.toNat_le_of_le (by norm_num) h.2
  omega

/-- The folded decimal value is bounded by the digit count. -/
theorem digitsToNat_fold_lt (ds : List Char) (h : ds.all (fun c => c.isDigit) = true) :
    ∀ acc : Nat, ds.foldl (fun a c => a * 10 + (c.toNat - 48)) acc <
      (acc + 1) * 10 ^ ds.length := by
  induction ds with
  | nil =>
    intro acc
    simp
  | cons c cs ih =>
    intro acc
    simp only [List.all_cons, Bool.and_eq_true] at h
    have hc : c.toNat - 48 ≤ 9 := digit_val_le h.1
    have hstep := ih h.2 (acc * 10 + (c.toNat - 48))
    calc (c :: cs).foldl (fun a c => a * 10 + (c.toNat - 48)) acc
        = cs.foldl (fun a c => a * 10 + (c.toNat - 48)) (acc * 10 + (c.toNat - 48)) := rfl
      _ < (acc * 10 + (c.toNat - 48) + 1) * 10 ^ cs.length := hstep
      _ ≤ ((acc + 1) * 10) * 10 ^ cs.length := by
          have : acc * 10 + (c.toNat - 48) + 1 ≤ (acc + 1) * 10 := by omega
          exact Nat.mul_le_mul_right _ this
      _ = (acc + 1) * 10 ^ (c :: cs).length := by
          simp only [List.length_cons, Nat.pow_succ]
          ring

/-- An all-digit string of length `n` denotes a value below `10 ^ n`. -/
theorem digitsToNat_lt (ds : List Char) (h : ds.all (fun c => c.isDigit) = true) :
    digitsToNat ds < 10 ^ ds.length := by
  have := digitsToNat_fold_lt ds h 0
  simpa [digitsToNat] using this

/-- Success case of the fixed-width primitive. -/
theorem parse_decimal_digits_to_bits_ok (n w : Nat) (input : List Char)
    (hlen : (input.take n).length = n)
    (hdig : (input.take n).all (fun c => c.isDigit) = true)
    (hval : digitsToNat (input.take n) ≤ 2 ^ w - 1) :
    parse_decimal_digits_to_bits n w input =
      .ok (input.drop n, digitsToNat (input.take n)) := by
  unfold parse_decimal_digits_to_bits
  rw [if_pos ⟨hlen, hdig⟩, if_pos hval]

/-- Capacity-failure case of the fixed-width primitive. -/
theorem parse_decimal_digits_to_bits_vec (n w : Nat) (input : List Char)
    (hlen : (input.take n).length = n)
    (hdig : (input.take n).all (fun c => c.isDigit) = true)
    (hval : 2 ^ w - 1 < digitsToNat (input.take n)) :
    parse_decimal_digits_to_bits n w input =
      .error (input, .ValueExceedsCapacity (digitsToNat (input.take n)) (2 ^ w - 1)) := by
  unfold parse_decimal_digits_to_bits
  rw [if_pos ⟨hlen, hdig⟩, if_neg (by omega)]

/-- Length-failure case of the fixed-width primitive. -/
theorem parse_decimal_digits_to_bits_len (n w : Nat) (input : List Char)
    (hbad : ¬((input.take n).length = n ∧ (input.take n).all (fun c => c.isDigit) = true)) :
    parse_decimal_digits_to_bits n w input =
      .error (input, .InvalidLength n ((input.take n).takeWhile (fun c => c.isDigit)).length) := by
  unfold parse_decimal_digits_to_bits
  rw [if_neg hbad]

/-- Inversion of a successful fixed-width parse. -/
theorem parse_decimal_digits_to_bits_ok_inv {n w : Nat} {input rest : List Char}
    {v : Nat} (h : parse_decimal_digits_to_bits n w input = .ok (rest, v)) :
    v ≤ 2 ^ w - 1 ∧ rest = input.drop n ∧ v = digitsToNat (input.take n) ∧
      (input.take n).length = n ∧ (input.take n).all (fun c => c.isDigit) = true := by
  unfold parse_decimal_digits_to_bits at h
  by_cases h1 : (input.take n).length = n ∧ (input.take n).all (fun c => c.isDigit) = true
  · rw [if_pos h1] at h
    by_cases h2 : digitsToNat (input.take n) ≤ 2 ^ w - 1
    · rw [if_pos h2] at h
      have h3 := Except.ok.inj h
      have h4 : rest = input.drop n := (congrArg Prod.fst h3).symm
      have h5 : v = digitsToNat (input.take n) := (congrArg Prod.snd h3).symm
      exact ⟨h5 ▸ h2, h4, h5, h1.1, h1.2⟩
    · rw [if_neg h2] at h
      exact absurd h (by simp)
  · rw [if_neg h1] at h
    exact absurd h (by simp)

/-- Inversion of a successful state-code parse: the state is a valid
enumerated code and two characters were consumed. -/
theorem parse_state_code_ok_inv {input rest : List Char} {st : Nat}
    (h : parse_state_code input = .ok (rest, st)) :
    USState.valid_code st = true ∧ 1 ≤ st ∧ st ≤ 63 ∧ rest = input.drop 2 := by
  unfold parse_state_code at h
  cases hp : parse_decimal_digits_to_bits 2 6 input with
  | error e =>
    rw [hp] at h
    exact absurd h (by simp)
  | ok p =>
    rw [hp] at h
    obtain ⟨r, v⟩ := p
    have h' : (if USState.valid_code v = true then (Except.ok (r, v) : FIPSParseResult Nat)
        else .error (input, .ValueExceedsCapacity v 63)) = .ok (rest, st) := h
    by_cases hv : USState.valid_code v = true
    · rw [if_pos hv] at h'
      have h3 := Except.ok.inj h'
      have h4 : rest = r := (congrArg Prod.fst h3).symm
      have h5 : st = v := (congrArg Prod.snd h3).symm
      subst h4
      subst h5
      obtain ⟨hv1, hv2⟩ := USState.valid_code_iff.mp hv
      obtain ⟨_, hr, _, _, _⟩ := parse_decimal_digits_to_bits_ok_inv hp
      exact ⟨hv, hv1, hv2, hr⟩
    · rw [if_neg hv] at h'
      exact absurd h' (by simp)

/-- The leading character of a string whose first `n ≥ 1` characters are
digits is not `'x'`, so the `"xprvx"` marker test fails on it. -/
theorem take_not_xprvx {input : List Char} {n : Nat} (hn : 1 ≤ n)
    (hlen : (input.take n).length = n)
    (hdig : (input.take n).all (fun c => c.isDigit) = true) :
    ¬input.take 5 = XPRVX := by
  intro hx
  cases input with
  | nil =>
    rw [List.take_nil] at hlen
    simp at hlen
    omega
  | cons a rest =>
    have ha : a.isDigit = true := by
      cases n with
      | zero => omega
      | succ m =>
        rw [List.take_succ_cons, List.all_cons, Bool.and_eq_true] at hdig
        exact hdig.1
    rw [show (5 : Nat) = 4 + 1 by norm_num, List.take_succ_cons] at hx
    have hax : a = 'x' := (List.cons.inj hx).1
    rw [hax] at ha
    exact absurd ha (by decide)

/-- Both the success and the capacity-failure behavior of a fixed-width
field parser, for an input whose leading `n` characters are digits. -/
theorem fixed_parser_spec (n w : Nat) (input : List Char)
    (hlen : (input.take n).length = n)
    (hdig : (input.take n).all (fun c => c.isDigit) = true) :
    (digitsToNat (input.take n) ≤ 2 ^ w - 1 →
      parse_decimal_digits_to_bits n w input =
        .ok (input.drop n, digitsToNat (input.take n))) ∧
    (digitsToNat (input.take n) = 2 ^ w →
      parse_decimal_digits_to_bits n w input =
        .error (input, .ValueExceedsCapacity (2 ^ w) (2 ^ w - 1))) := by
  constructor
  · intro hval
    exact parse_decimal_digits_to_bits_ok n w input hlen hdig hval
  · intro hval
    have hpos := Nat.two_pow_pos w
    rw [parse_decimal_digits_to_bits_vec n w input hlen hdig (by omega), hval]

/-- A fixed-width field parser whose digit count cannot express its bit
capacity either succeeds or fails with `InvalidLength` on the original
input. -/
theorem fixed_parser_total (n w : Nat) (hnw : 10 ^ n ≤ 2 ^ w) (input : List Char) :
    (∃ rest v, parse_decimal_digits_to_bits n w input = .ok (rest, v)) ∨
    (∃ f, parse_decimal_digits_to_bits n w input =
      .error (input, .InvalidLength n f)) := by
  by_cases hcond : (input.take n).length = n ∧ (input.take n).all (fun c => c.isDigit) = true
  · left
    refine ⟨input.drop n, digitsToNat (input.take n), ?_⟩
    apply parse_decimal_digits_to_bits_ok n w input hcond.1 hcond.2
    have hlt := digitsToNat_lt (input.take n) hcond.2
    rw [hcond.1] at hlt
    have hpos := Nat.two_pow_pos w
    omega
  · right
    exact ⟨((input.take n).takeWhile (fun c => c.isDigit)).length,
      parse_decimal_digits_to_bits_len n w input hcond⟩

/-- C2: each fixed-width field parser, on an input whose leading
`digit_count` characters are all decimal digits, succeeds on values up to
its bit capacity (consuming exactly `digit_count` characters) and fails with
`ValueExceedsCapacity` reporting the exact value and capacity on a value of
`2 ^ bit_width` — county (3,10), tract (6,20), home-id (4,14),
public-school-id (3,10), private-school-id (4,11), workplace-id (5,14). -/
theorem c2_fixed_width_field_parsers (input : List Char) :
    ((input.take 3).length = 3 → (input.take 3).all (fun c => c.isDigit) = true →
      (digitsToNat (input.take 3) ≤ 1023 →
        parse_county_code input = .ok (input.drop 3, digitsToNat (input.take 3))) ∧
      (digitsToNat (input.take 3) = 1024 →
        parse_county_code input = .error (input, .ValueExceedsCapacity 1024 1023))) ∧
    ((input.take 6).length = 6 → (input.take 6).all (fun c => c.isDigit) = true →
      (digitsToNat (input.take 6) ≤ 1048575 →
        parse_tract_code input = .ok (input.drop 6, digitsToNat (input.take 6))) ∧
      (digitsToNat (input.take 6) = 1048576 →
        parse_tract_code input = .error (input, .ValueExceedsCapacity 1048576 1048575))) ∧
    ((input.take 4).length = 4 → (input.take 4).all (fun c => c.isDigit) = true →
      (digitsToNat (input.take 4) ≤ 16383 →
        parse_home_id input = .ok (input.drop 4, digitsToNat (input.take 4))) ∧
      (digitsToNat (input.take 4) = 16384 →
        parse_home_id input = .error (input, .ValueExceedsCapacity 16384 16383))) ∧
    ((input.take 3).length = 3 → (input.take 3).all (fun c => c.isDigit) = true →
      (digitsToNat (input.take 3) ≤ 1023 →
        parse_public_school_id input =
          .ok (input.drop 3, digitsToNat (input.take 3))) ∧
      (digitsToNat (input.take 3) = 1024 →
        parse_public_school_id input =
          .error (input, .ValueExceedsCapacity 1024 1023))) ∧
    ((input.take 4).length = 4 → (input.take 4).all (fun c => c.isDigit) = true →
      (digitsToNat (input.take 4) ≤ 2047 →
        parse_private_school_id input =
          .ok (input.drop 4, digitsToNat (input.take 4))) ∧
      (digitsToNat (input.take 4) = 2048 →
        parse_private_school_id input =
          .error (input, .ValueExceedsCapacity 2048 2047))) ∧
    ((input.take 5).length = 5 → (input.take 5).all (fun c => c.isDigit) = true →
      (digitsToNat (input.take 5) ≤ 16383 →
        parse_workplace_id input = .ok (input.drop 5, digitsToNat (input.take 5))) ∧
      (digitsToNat (input.take 5) = 16384 →
        parse_workplace_id input =
          .error (input, .ValueExceedsCapacity 16384 16383))) := by
  refine ⟨?_, ?_, ?_, ?_, ?_, ?_⟩
  · intro hlen hdig
    have h := fixed_parser_spec 3 10 input hlen hdig
    norm_num at h
    exact h
  · intro hlen hdig
    have h := fixed_parser_spec 6 20 input hlen hdig
    norm_num at h
    exact h
  · intro hlen hdig
    have h := fixed_parser_spec 4 14 input hlen hdig
    norm_num at h
    exact h
  · intro hlen hdig
    have h := fixed_parser_spec 3 10 input hlen hdig
    norm_num at h
    exact h
  · intro hlen hdig
    have hnx := take_not_xprvx (n := 4) (by norm_num) hlen hdig
    have h := fixed_parser_spec 4 11 input hlen hdig
    norm_num at h
    unfold parse_private_school_id
    rw [if_neg hnx]
    exact h
  · intro hlen hdig
    have h := fixed_parser_spec 5 14 input hlen hdig
    norm_num at h
    exact h

/-- Witness for C2: concrete success and capacity-failure inputs, among them
the spec's workplace-id example `"16384"`. -/
theorem c2_fixed_width_field_parsers_witness :
    parse_workplace_id ("16384".toList) =
      .error ("16384".toList, .ValueExceedsCapacity 16384 16383) ∧
    parse_county_code ("123rest".toList) = .ok ("rest".toList, 123) ∧
    parse_workplace_id ("16383abc".toList) = .ok ("abc".toList, 16383) := by
  refine ⟨?_, ?_, ?_⟩
  · exact ((c2_fixed_width_field_parsers ("16384".toList)).2.2.2.2.2 (by decide)
      (by decide)).2 (by decide)
  · exact ((c2_fixed_width_field_parsers ("123rest".toList)).1 (by decide)
      (by decide)).1 (by decide)
  · exact ((c2_fixed_width_field_parsers ("16383abc".toList)).2.2.2.2.2 (by decide)
      (by decide)).1 (by decide)

/-- C10: the county, tract, home-id and public-school-id parsers can never
report `ValueExceedsCapacity`: the largest value expressible in their digit
counts fits their bit widths, so they either succeed or fail with
`InvalidLength`. -/
theorem c10_no_capacity_error (input : List Char) :
    ((∃ rest v, parse_county_code input = .ok (rest, v)) ∨
      (∃ f, parse_county_code input = .error (input, .InvalidLength 3 f))) ∧
    ((∃ rest v, parse_tract_code input = .ok (rest, v)) ∨
      (∃ f, parse_tract_code input = .error (input, .InvalidLength 6 f))) ∧
    ((∃ rest v, parse_home_id input = .ok (rest, v)) ∨
      (∃ f, parse_home_id input = .error (input, .InvalidLength 4 f))) ∧
    ((∃ rest v, parse_public_school_id input = .ok (rest, v)) ∨
      (∃ f, parse_public_school_id input = .error (input, .InvalidLength 3 f))) :=
  ⟨fixed_parser_total 3 10 (by norm_num) input,
    fixed_parser_total 6 20 (by norm_num) input,
    fixed_parser_total 4 14 (by norm_num) input,
    fixed_parser_total 3 10 (by norm_num) input⟩

/-- C8 counterexample: the marker-stripping equivalence fails for a string
that itself begins with `"xprvx"`.  On `s = "xprvx2047"` the bare parse
strips the marker and succeeds with 2047, while the parse of `"xprvx" ++ s`
strips only the first marker and then fails on the non-digit characters. -/
theorem c8_xprvx_counterexample :
    parse_private_school_id ("xprvx2047".toList) = .ok ([], 2047) ∧
    parse_private_school_id (XPRVX ++ "xprvx2047".toList) =
      .error ("xprvx2047".toList, .InvalidLength 4 0) ∧
    parse_private_school_id (XPRVX ++ "xprvx2047".toList) ≠
      parse_private_school_id ("xprvx2047".toList) := by
  have h1 : parse_private_school_id ("xprvx2047".toList) = .ok ([], 2047) := rfl
  have h2 : parse_private_school_id (XPRVX ++ "xprvx2047".toList) =
      .error ("xprvx2047".toList, .InvalidLength 4 0) := rfl
  refine ⟨h1, h2, ?_⟩
  rw [h1, h2]
  simp

/-- C8 amended: for every string `s` that does not itself begin with the
literal `"xprvx"`, `parse_private_school_id` on `"xprvx" ++ s` and on `s`
yield identical results: the optional marker is stripped, if present, before
the 4-digit, 11-bit parse and has no other effect. -/
theorem c8_xprvx_transparent (s : List Char) (h : s.take 5 ≠ XPRVX) :
    parse_private_school_id (XPRVX ++ s) = parse_private_school_id s := by
  unfold parse_private_school_id
  have h1 : (XPRVX ++ s).take 5 = XPRVX := by
    rw [show (5 : Nat) = XPRVX.length from rfl, List.take_left]
  have h2 : (XPRVX ++ s).drop 5 = s := by
    rw [show (5 : Nat) = XPRVX.length from rfl, List.drop_left]
  rw [if_pos h1, h2, if_neg h]

/-- Witness for C8's amended claim at a concrete input. -/
theorem c8_xprvx_transparent_witness :
    parse_private_school_id (XPRVX ++ "1234rest".toList) =
      parse_private_school_id ("1234rest".toList) :=
  c8_xprvx_transparent ("1234rest".toList) (by decide)

/-- C9 counterexample: on the non-empty input `"abc"`, whose first character
is not a digit, `parse_integer` reports `InvalidLength {expected: 1,
found: 0}`, not `InvalidDigit 'a'`: the zero-digit check fires before the
`InvalidDigit` branch can be reached. -/
theorem c9_invalid_digit_counterexample :
    parse_integer ("abc".toList) = .error ("abc".toList, .InvalidLength 1 0) ∧
    parse_integer ("abc".toList) ≠ .error ("abc".toList, .InvalidDigit 'a') := by
  have h1 : parse_integer ("abc".toList) = .error ("abc".toList, .InvalidLength 1 0) := rfl
  refine ⟨h1, ?_⟩
  rw [h1]
  simp

/-- C9 amended: for every non-empty input whose first character is not a
decimal digit, `parse_integer` fails with `InvalidLength {expected: 1,
found: 0}` — the same error as for the empty input; the `InvalidDigit`
branch is unreachable. -/
theorem c9_nondigit_invalid_length (c : Char) (cs : List Char)
    (hc : c.isDigit = false) :
    parse_integer (c :: cs) = .error (c :: cs, .InvalidLength 1 0) := by
  unfold parse_integer
  simp [List.takeWhile_cons, hc]

/-- Witness for C9's amended claim at a concrete input. -/
theorem c9_nondigit_invalid_length_witness :
    parse_integer ('z' :: "9".toList) = .error ('z' :: "9".toList, .InvalidLength 1 0) :=
  c9_nondigit_invalid_length 'z' ("9".toList) (by decide)

/-- A successful private-school id fits in 11 bits. -/
theorem parse_private_school_id_ok_inv {input r : List Char} {v : Nat}
    (h : parse_private_school_id input = .ok (r, v)) : v ≤ 2047 := by
  unfold parse_private_school_id at h
  split at h
  · have := parse_decimal_digits_to_bits_ok_inv h
    omega
  · have := parse_decimal_digits_to_bits_ok_inv h
    omega

/-- C3: the school-identifier parser parses a state code, then a 3-digit
county; if the remainder then starts with `'x'` it parses a private-school
id (with the optional `"xprvx"` marker stripped inside
`parse_private_school_id`), packing category `PrivateSchool` with tract
forced to 0; otherwise it parses a 6-digit tract and a 3-digit
public-school id, packing category `PublicSchool`.  In particular,
`"24031xprvx0150"` yields state 24, county 31, tract 0, category
`PrivateSchool`, id 150. -/
theorem c3_school_parser_branches (input r₁ : List Char) (st : Nat)
    (hst : parse_state_code input = .ok (r₁, st))
    (r₂ : List Char) (cty : Nat)
    (hcty : parse_county_code r₁ = .ok (r₂, cty)) :
    (r₂.take 1 = ['x'] →
      ∀ r₃ sid, parse_private_school_id r₂ = .ok (r₃, sid) →
        parse_fips_school_id input = some (.ok (r₃, hornerFields st cty 0 4 sid 0))) ∧
    (r₂.take 1 ≠ ['x'] →
      ∀ r₃ tr, parse_tract_code r₂ = .ok (r₃, tr) →
        ∀ r₄ sid, parse_public_school_id r₃ = .ok (r₄, sid) →
          parse_fips_school_id input = some (.ok (r₄, hornerFields st cty tr 3 sid 0))) ∧
    parse_fips_school_id ("24031xprvx0150".toList) =
      some (.ok ([], hornerFields 24 31 0 4 150 0)) ∧
    ExpandedFIPSCode.from_fips_code (hornerFields 24 31 0 4 150 0) =
      some ⟨24, 31, 0, .PrivateSchool, 150, 0⟩ := by
  obtain ⟨hvst, hst1, hst63, -⟩ := parse_state_code_ok_inv hst
  obtain ⟨hcty_le, -, -, -, -⟩ := parse_decimal_digits_to_bits_ok_inv hcty
  refine ⟨?_, ?_, ?_, ?_⟩
  · intro hx r₃ sid hsid
    have hsid_le : sid ≤ 2047 := parse_private_school_id_ok_inv hsid
    have hnew := FIPSCode.new_eq st cty 0 .PrivateSchool sid 0 hvst (by omega)
      (by norm_num) (by omega) (by norm_num)
    unfold parse_fips_school_id
    rw [hst]
    simp only []
    rw [hcty]
    simp only []
    rw [if_pos hx, hsid]
    simp only []
    rw [hnew]
    simp [SettingCategory.encode]
  · intro hx r₃ tr htr r₄ sid hsid
    have htr_le : tr ≤ 1048575 := by
      have := parse_decimal_digits_to_bits_ok_inv htr
      omega
    have hsid_le : sid ≤ 1023 := by
      have := parse_decimal_digits_to_bits_ok_inv hsid
      omega
    have hnew := FIPSCode.new_eq st cty tr .PublicSchool sid 0 hvst (by omega)
      (by omega) (by omega) (by norm_num)
    unfold parse_fips_school_id
    rw [hst]
    simp only []
    rw [hcty]
    simp only []
    rw [if_neg hx, htr]
    simp only []
    rw [hsid]
    simp only []
    rw [hnew]
    simp [SettingCategory.encode]
  · rfl
  · rfl

/-- Witness for C3: both branches at concrete inputs — the private-school
string `"24031xprvx0150"` and the public-school string `"11001009810157"`. -/
theorem c3_school_parser_branches_witness :
    parse_fips_school_id ("24031xprvx0150".toList) =
      some (.ok ([], hornerFields 24 31 0 4 150 0)) ∧
    parse_fips_school_id ("11001009810157".toList) =
      some (.ok ([], hornerFields 11 1 9810 3 157 0)) :=
  ⟨(c3_school_parser_branches ("24031xprvx0150".toList) ("031xprvx0150".toList) 24 rfl
      ("xprvx0150".toList) 31 rfl).1 rfl [] 150 rfl,
    (c3_school_parser_branches ("11001009810157".toList) ("001009810157".toList) 11 rfl
      ("009810157".toList) 1 rfl).2.1 (by decide) ("157".toList) 9810 rfl [] 157 rfl⟩

end Fips
